import Mathlib

set_option maxHeartbeats 1000000
set_option maxRecDepth 4096

/-!
Verification of the PayID resolution middleware
(src/middlewares/payIds.ts).

The file embeds the middleware `getPaymentInfo` and its helper
`getPaymentInfoForAcceptTypes` as pure Lean functions.  The external
collaborators the middleware imports (identifier normalization, the
Accept media-type parser and the record store) are not part of the
visible source; they are passed in as abstract parameters through the
`Collab` structure, while the record matcher `getPreferredPaymentInfo`
— whose behaviour several claims are about — is modelled concretely
from the spec.  Every function additionally returns a trace of the
collaborator calls it performed so that frame/effect properties are
statable.
-/

/-- One parsed client preference from the Accept header.  Modelled from the
spec: the AcceptMediaType type is declared in utils/acceptHeader, which is
not under src; the fields are the ones the middleware reads (paymentNetwork,
environment, mediaType), with the optional environment represented as an
Option whose absence is the wildcard.  The quality weight is consumed by the
transport-layer sort upstream and is never read by this middleware. -/
structure AcceptMediaType where
  mediaType : String
  paymentNetwork : String
  environment : Option String
  deriving DecidableEq, Repr

/-- The two mutually exclusive address-detail payload shapes.  Modelled from
the spec: CryptoAddressDetails and AchAddressDetails are declared in
types/publicAPI, which is not under src; the payload is opaque to the
middleware and is passed through unchanged. -/
inductive AddressDetails where
  | cryptoAddressDetails (address : String) (tag : Option String)
  | achAddressDetails (accountNumber : String) (routingNumber : String)
  deriving DecidableEq, Repr

/-- One stored payment destination as returned by the record store.
Modelled from the spec: the AddressInformation type is declared in
types/database, which is not under src; the middleware reads its
payment_network, environment and details fields. -/
structure AddressInformation where
  payment_network : String
  environment : String
  details : AddressDetails
  deriving DecidableEq, Repr

/-- Modelled from the spec: the detailsKind discriminator of an address
record names which of the two mutually exclusive detail shapes its payload
actually is. -/
def AddressInformation.detailsKind (record : AddressInformation) : String :=
  match record.details with
  | AddressDetails.cryptoAddressDetails _ _ => "crypto-address"
  | AddressDetails.achAddressDetails _ _ => "ach-address"

/-- The discriminator tag placed on the outbound payload
(types/publicAPI, not under src). -/
inductive AddressDetailType where
  | CryptoAddress
  | AchAddress
  deriving DecidableEq, Repr

/-- The outbound payment-information payload shaped by the middleware
(types/publicAPI, not under src). -/
structure PaymentInformation where
  addressDetailType : AddressDetailType
  addressDetails : AddressDetails
  deriving DecidableEq, Repr

/-- HTTP 400 (types/httpStatus, not under src). -/
def HttpStatus.BadRequest : Nat := 400

/-- HTTP 404 (types/httpStatus, not under src). -/
def HttpStatus.NotFound : Nat := 404

/-- Observable calls the middleware makes to its collaborators, recorded as
an instrumentation trace next to the response state. -/
inductive Event where
  | parseCall (token : String)
  | fetchCall (payId : String)
  deriving DecidableEq, Repr

/-- The res.locals fields this middleware writes. -/
structure ResLocals where
  payId : Option String
  paymentInformation : Option PaymentInformation
  response : Option PaymentInformation
  deriving DecidableEq, Repr

/-- The observable state of the Express response, restricted to what the
middleware touches: the Content-Type header, res.locals, the error response
recorded by handleHttpError, and whether next() was invoked. -/
structure ResState where
  contentType : Option String
  locals : ResLocals
  error : Option (Nat × String)
  nextCalled : Bool
  deriving DecidableEq, Repr

/-- Modelled from the spec: generic HTTP error-response formatting
(middlewares/errors, not under src) is an external collaborator; it records
the status code and message as the terminal error response and neither
touches res.locals nor calls next(). -/
def handleHttpError (status : Nat) (message : String) (res : ResState) : ResState :=
  { res with error := some (status, message) }

/-- The request fields the middleware reads: hostname, url, and the Accept
header tokens as returned by req.accepts(), already sorted by preference by
the transport layer. -/
structure Req where
  hostname : String
  url : String
  acceptHeaderTypes : List String

/-- The external collaborators imported by the middleware: identifier
normalization (urlToPayId, services/utils), the Accept media-type grammar
(parseAcceptMediaType, utils/acceptHeader) and the record store
(getAllPaymentInfoFromDatabase, data-access/payIds); none of them is under
src, so each is an abstract parameter.  A throwing TS function is modelled
as Except (carrying err.message) or Option. -/
structure Collab where
  urlToPayId : String → Except String String
  parseAcceptMediaType : String → Option AcceptMediaType
  getAllPaymentInfoFromDatabase : String → List AddressInformation

/-- Tests whether one stored record satisfies one accepted media type.
Modelled from the spec: the matcher selects a record whose paymentNetwork
matches exactly and whose environment matches exactly or the preference's
environment is the wildcard. -/
def acceptTypeMatches (acceptType : AcceptMediaType) (record : AddressInformation) : Bool :=
  record.payment_network == acceptType.paymentNetwork &&
    match acceptType.environment with
    | none => true
    | some environment => environment == record.environment

/-- Modelled from the spec: getPreferredPaymentInfo (utils/acceptHeader, not
under src) iterates the ranked preference sequence in order and returns, for
the first preference with any matching record, that preference paired with
the first matching record in the record set; none when no preference
matches any record. -/
def getPreferredPaymentInfo (records : List AddressInformation) :
    List AcceptMediaType → Option (AcceptMediaType × AddressInformation)
  | [] => none
  | acceptType :: rest =>
    match records.find? (acceptTypeMatches acceptType) with
    | some record => some (acceptType, record)
    | none => getPreferredPaymentInfo records rest

/-- The error message for a missing Accept header (payIds.ts lines 86-91). -/
def missingAcceptHeaderMessage : String :=
  "Missing Accept header. Must have an Accept header of the form \"application/{payment_network}(-{environment})+json\".
      Examples:
      - Accept: application/xrpl-mainnet+json
      - Accept: application/btc-testnet+json
      - Accept: application/ach+json
      "

/-- The error message for an invalid Accept header (payIds.ts lines 105-110). -/
def invalidAcceptHeaderMessage : String :=
  "Invalid Accept header. Must be of the form \"application/{payment_network}(-{environment})+json\".
      Examples:
      - Accept: application/xrpl-mainnet+json
      - Accept: application/btc-testnet+json
      - Accept: application/ach+json
      "

/-- Renders the optional environment of an accept type the way the TS
template literal on payIds.ts line 125 renders it: the value when present,
the text undefined when the wildcard is interpolated. -/
def environmentText : Option String → String
  | some environment => environment
  | none => "undefined"

/-- The generic not-found message (payIds.ts line 121). -/
def notFoundMessage (payId : String) : String :=
  s!"Payment information for {payId} could not be found."

/-- The specific not-found message used when exactly one accept type was
supplied (payIds.ts lines 122-126); it carries that type's payment network
and environment. -/
def notFoundSingleMessage (payId : String) (acceptType : AcceptMediaType) : String :=
  let paymentNetwork := acceptType.paymentNetwork
  let environment := environmentText acceptType.environment
  s!"Payment information for {payId} in {paymentNetwork} on {environment} could not be found."

/-- Parses every Accept token (payIds.ts lines 96-113:
acceptHeaderTypes.map parseAcceptMediaType inside try/catch — the first
token the parser rejects aborts the whole map).  Returns the parsed list,
or none when any token is rejected, together with the trace of parser calls
actually made. -/
def parseAcceptTypes (parse : String → Option AcceptMediaType) :
    List String → Option (List AcceptMediaType) × List Event
  | [] => (some [], [])
  | token :: rest =>
    match parse token with
    | none => (none, [Event.parseCall token])
    | some acceptType =>
      match parseAcceptTypes parse rest with
      | (none, events) => (none, Event.parseCall token :: events)
      | (some parsedRest, events) =>
        (some (acceptType :: parsedRest), Event.parseCall token :: events)

/-- Returns the best payment information for a PayID for a set of sorted
Accept types (payIds.ts lines 30-47), paired with the trace of record-store
calls: none and no fetch when the sorted list is empty, otherwise one fetch
followed by the preferred-match selection. -/
def getPaymentInfoForAcceptTypes (fetch : String → List AddressInformation)
    (payId : String) (sortedAcceptTypes : List AcceptMediaType) :
    Option (AcceptMediaType × AddressInformation) × List Event :=
  match sortedAcceptTypes with
  | [] => (none, [])
  | _ :: _ =>
    let allPaymentInformation := fetch payId
    (getPreferredPaymentInfo allPaymentInformation sortedAcceptTypes,
      [Event.fetchCall payId])

/-- The hosted PayID URL reconstructed from the request (payIds.ts line 70). -/
def payIdUrl (req : Req) : String :=
  "https://" ++ req.hostname ++ req.url

/-- The outbound payload the middleware shapes from a matched record
(payIds.ts lines 136-145): the crypto-address shape by default, the
ach-address shape exactly when the record's payment_network is the string
ACH; the opaque details payload is passed through unchanged in both cases
(the source's unchecked casts). -/
def shapedResponse (paymentInformation : AddressInformation) : PaymentInformation :=
  if paymentInformation.payment_network == "ACH" then
    { addressDetailType := AddressDetailType.AchAddress,
      addressDetails := paymentInformation.details }
  else
    { addressDetailType := AddressDetailType.CryptoAddress,
      addressDetails := paymentInformation.details }

/-- The getPaymentInfo middleware (payIds.ts lines 57-154): normalizes the
identifier, requires a non-empty Accept token list, parses every token,
fetches and matches records, and on success sets the Content-Type header,
shapes the outbound payload and populates res.locals before calling next();
every failure is routed through handleHttpError and next() is not called.
Returns the final response state together with the collaborator-call trace. -/
def getPaymentInfo (c : Collab) (req : Req) (res : ResState) : ResState × List Event :=
  match c.urlToPayId (payIdUrl req) with
  | Except.error errMessage =>
    (handleHttpError HttpStatus.BadRequest errMessage res, [])
  | Except.ok payId =>
    match req.acceptHeaderTypes with
    | [] =>
      (handleHttpError HttpStatus.BadRequest missingAcceptHeaderMessage res, [])
    | token :: rest =>
      match parseAcceptTypes c.parseAcceptMediaType (token :: rest) with
      | (none, events) =>
        (handleHttpError 400 invalidAcceptHeaderMessage res, events)
      | (some parsedAcceptTypes, parseEvents) =>
        match getPaymentInfoForAcceptTypes c.getAllPaymentInfoFromDatabase
            payId parsedAcceptTypes with
        | (none, fetchEvents) =>
          let message :=
            match parsedAcceptTypes with
            | [acceptType] => notFoundSingleMessage payId acceptType
            | _ => notFoundMessage payId
          (handleHttpError HttpStatus.NotFound message res, parseEvents ++ fetchEvents)
        | (some (acceptType, paymentInformation), fetchEvents) =>
          let response := shapedResponse paymentInformation
          ({ res with
              contentType := some acceptType.mediaType,
              locals :=
                { payId := some payId,
                  paymentInformation := some response,
                  response := some response },
              nextCalled := true },
            parseEvents ++ fetchEvents)

/-- Concrete accepted media type for xrpl mainnet, used in witnesses. -/
def xrplMainnetType : AcceptMediaType :=
  { mediaType := "application/xrpl-mainnet+json",
    paymentNetwork := "xrpl",
    environment := some "mainnet" }

/-- Concrete accepted media type for xrpl testnet, used in witnesses. -/
def xrplTestnetType : AcceptMediaType :=
  { mediaType := "application/xrpl-testnet+json",
    paymentNetwork := "xrpl",
    environment := some "testnet" }

/-- Concrete accepted media type for ACH (wildcard environment), used in
witnesses. -/
def achType : AcceptMediaType :=
  { mediaType := "application/ach+json",
    paymentNetwork := "ACH",
    environment := none }

/-- Concrete accepted media type for btc mainnet, used in witnesses. -/
def btcMainnetType : AcceptMediaType :=
  { mediaType := "application/btc-mainnet+json",
    paymentNetwork := "btc",
    environment := some "mainnet" }

/-- Concrete stored record on the xrpl mainnet network, used in witnesses. -/
def xrplMainnetRecord : AddressInformation :=
  { payment_network := "xrpl",
    environment := "mainnet",
    details := AddressDetails.cryptoAddressDetails "rMainnetAddress" none }

/-- Concrete stored record on the xrpl testnet network, used in witnesses. -/
def xrplTestnetRecord : AddressInformation :=
  { payment_network := "xrpl",
    environment := "testnet",
    details := AddressDetails.cryptoAddressDetails "rTestnetAddress" none }

/-- Concrete stored ACH record, used in witnesses. -/
def achNetworkRecord : AddressInformation :=
  { payment_network := "ACH",
    environment := "mainnet",
    details := AddressDetails.achAddressDetails "000123" "456789" }

/-- Concrete stored record whose payload is the ach-address shape although
its payment_network is btc, used to exercise the detail-kind selection. -/
def btcRecordWithAchDetails : AddressInformation :=
  { payment_network := "btc",
    environment := "mainnet",
    details := AddressDetails.achAddressDetails "000123" "456789" }

/-- Concrete Accept media-type parser used by witnesses: accepts four fixed
media types. -/
def exampleParse : String → Option AcceptMediaType
  | "application/xrpl-mainnet+json" => some xrplMainnetType
  | "application/xrpl-testnet+json" => some xrplTestnetType
  | "application/ach+json" => some achType
  | "application/btc-mainnet+json" => some btcMainnetType
  | _ => none

/-- Concrete identifier normalizer used by witnesses: every hosted URL
normalizes to the same PayID. -/
def exampleNormalize : String → Except String String :=
  fun _ => Except.ok "alice$example.com"

/-- Concrete collaborator bundle used by witnesses, whose record store
returns the given records for every identifier. -/
def exampleCollab (records : List AddressInformation) : Collab :=
  { urlToPayId := exampleNormalize,
    parseAcceptMediaType := exampleParse,
    getAllPaymentInfoFromDatabase := fun _ => records }

/-- Concrete request used by witnesses. -/
def exampleReq (tokens : List String) : Req :=
  { hostname := "example.com", url := "/alice", acceptHeaderTypes := tokens }

/-- The fresh response state a middleware starts from. -/
def resInit : ResState :=
  { contentType := none,
    locals := { payId := none, paymentInformation := none, response := none },
    error := none,
    nextCalled := false }

/-- Collaborators with no stored records at all. -/
def cNoRecords : Collab := exampleCollab []

/-- Collaborators whose store holds one xrpl mainnet record. -/
def cXrpl : Collab := exampleCollab [xrplMainnetRecord]

/-- Collaborators whose store holds one ACH record only. -/
def cAchOnly : Collab := exampleCollab [achNetworkRecord]

/-- Collaborators whose store holds the btc record with ach-shaped details. -/
def cBtcAch : Collab := exampleCollab [btcRecordWithAchDetails]

/-- Request asking for xrpl mainnet only. -/
def reqXrpl : Req := exampleReq ["application/xrpl-mainnet+json"]

/-- Request asking for xrpl mainnet and ACH. -/
def reqBoth : Req := exampleReq ["application/xrpl-mainnet+json", "application/ach+json"]

/-- Request asking for ACH only. -/
def reqAch : Req := exampleReq ["application/ach+json"]

/-- Request asking for btc mainnet only. -/
def reqBtc : Req := exampleReq ["application/btc-mainnet+json"]

/-- Request with a malformed Accept token. -/
def reqBogus : Req := exampleReq ["application/bogus"]

/-- The matcher finds nothing in an empty record set. -/
theorem getPreferredPaymentInfo_nil (prefs : List AcceptMediaType) :
    getPreferredPaymentInfo [] prefs = none := by
  induction prefs with
  | nil => rfl
  | cons acceptType rest ih => simpa [getPreferredPaymentInfo] using ih

/-- If any token of the list is rejected by the parser, the whole parse
fails. -/
theorem parseAcceptTypes_none_of_mem (parse : String → Option AcceptMediaType)
    (tokens : List String) (token : String) (hmem : token ∈ tokens)
    (hbad : parse token = none) :
    (parseAcceptTypes parse tokens).1 = none := by
  induction tokens with
  | nil => simp at hmem
  | cons t rest ih =>
    rcases List.mem_cons.mp hmem with rfl | hmem2
    · simp [parseAcceptTypes, hbad]
    · cases hpt : parse t with
      | none => simp [parseAcceptTypes, hpt]
      | some acceptType =>
        have hrest := ih hmem2
        cases hrec : parseAcceptTypes parse rest with
        | mk o events =>
          rw [hrec] at hrest
          cases o with
          | none => simp [parseAcceptTypes, hpt, hrec]
          | some parsedRest => simp at hrest


/-- Every event recorded while parsing Accept tokens is a parser call. -/
theorem parseAcceptTypes_events_parseCall (parse : String → Option AcceptMediaType)
    (tokens : List String) (e : Event) (hmem : e ∈ (parseAcceptTypes parse tokens).2) :
    ∃ tk, e = Event.parseCall tk := by
  induction tokens with
  | nil => simp [parseAcceptTypes] at hmem
  | cons t rest ih =>
    cases hpt : parse t with
    | none =>
      rw [parseAcceptTypes, hpt] at hmem
      simp at hmem
      exact ⟨t, hmem⟩
    | some acceptType =>
      rw [parseAcceptTypes, hpt] at hmem
      cases hrec : parseAcceptTypes parse rest with
      | mk o events =>
        rw [hrec] at hmem
        have hsub : e ∈ Event.parseCall t :: events := by
          cases o <;> simpa using hmem
        rcases List.mem_cons.mp hsub with rfl | hmem2
        · exact ⟨t, rfl⟩
        · exact ih (by rw [hrec]; exact hmem2)

/-- A successful parse of a non-empty token list yields a non-empty parsed
list. -/
theorem parseAcceptTypes_cons_ne_nil (parse : String → Option AcceptMediaType)
    (token : String) (rest : List String) (parsed : List AcceptMediaType)
    (events : List Event)
    (h : parseAcceptTypes parse (token :: rest) = (some parsed, events)) :
    parsed ≠ [] := by
  rw [parseAcceptTypes] at h
  cases hpt : parse token with
  | none => rw [hpt] at h; simp at h
  | some acceptType =>
    rw [hpt] at h
    cases hrec : parseAcceptTypes parse rest with
    | mk o evs =>
      rw [hrec] at h
      cases o with
      | none => simp at h
      | some parsedRest =>
        simp at h
        rw [← h.1]
        simp

/-- Unfolding of the middleware on the success path: the identifier
normalizes, every token parses, and the matcher returns a preferred pair. -/
theorem getPaymentInfo_success_eq (c : Collab) (req : Req) (res : ResState)
    (payId : String) (parsed : List AcceptMediaType) (events : List Event)
    (acceptType : AcceptMediaType) (paymentInformation : AddressInformation)
    (hnorm : c.urlToPayId (payIdUrl req) = Except.ok payId)
    (hp : parseAcceptTypes c.parseAcceptMediaType req.acceptHeaderTypes =
      (some parsed, events))
    (hm : getPreferredPaymentInfo (c.getAllPaymentInfoFromDatabase payId) parsed =
      some (acceptType, paymentInformation)) :
    getPaymentInfo c req res =
      ({ res with
          contentType := some acceptType.mediaType,
          locals :=
            { payId := some payId,
              paymentInformation := some (shapedResponse paymentInformation),
              response := some (shapedResponse paymentInformation) },
          nextCalled := true },
        events ++ [Event.fetchCall payId]) := by
  cases hts : req.acceptHeaderTypes with
  | nil =>
    rw [hts] at hp
    have hparsed : parsed = [] := by
      have := hp
      simp [parseAcceptTypes] at this
      exact this.1
    rw [hparsed] at hm
    simp [getPreferredPaymentInfo] at hm
  | cons token rest =>
    rw [hts] at hp
    have hne : parsed ≠ [] := parseAcceptTypes_cons_ne_nil _ _ _ _ _ hp
    cases hparsed : parsed with
    | nil => exact absurd hparsed hne
    | cons p ps =>
      rw [hparsed] at hp hm
      simp [getPaymentInfo, hnorm, hts, hp, getPaymentInfoForAcceptTypes, hm]

/-- The not-found message the middleware selects from the parsed accept
types (payIds.ts lines 120-128): the specific single-type message when
exactly one accept type was supplied, the generic one otherwise. -/
def notFoundMessageFor (payId : String) (parsed : List AcceptMediaType) : String :=
  match parsed with
  | [acceptType] => notFoundSingleMessage payId acceptType
  | _ => notFoundMessage payId

/-- Unfolding of the middleware on the not-found path: the identifier
normalizes, every token parses into a non-empty list, and the matcher finds
no preferred pair. -/
theorem getPaymentInfo_notFound_eq (c : Collab) (req : Req) (res : ResState)
    (payId : String) (parsed : List AcceptMediaType) (events : List Event)
    (hnorm : c.urlToPayId (payIdUrl req) = Except.ok payId)
    (hp : parseAcceptTypes c.parseAcceptMediaType req.acceptHeaderTypes =
      (some parsed, events))
    (hne : parsed ≠ [])
    (hnm : getPreferredPaymentInfo (c.getAllPaymentInfoFromDatabase payId) parsed =
      none) :
    getPaymentInfo c req res =
      (handleHttpError HttpStatus.NotFound (notFoundMessageFor payId parsed) res,
        events ++ [Event.fetchCall payId]) := by
  cases hts : req.acceptHeaderTypes with
  | nil =>
    rw [hts] at hp
    have hparsed : parsed = [] := by
      have := hp
      simp [parseAcceptTypes] at this
      exact this.1
    exact absurd hparsed hne
  | cons token rest =>
    rw [hts] at hp
    cases hparsed : parsed with
    | nil => exact absurd hparsed hne
    | cons p ps =>
      rw [hparsed] at hp hnm
      cases ps with
      | nil =>
        simp [getPaymentInfo, hnorm, hts, hp, getPaymentInfoForAcceptTypes, hnm,
          notFoundMessageFor]
      | cons p2 ps2 =>
        simp [getPaymentInfo, hnorm, hts, hp, getPaymentInfoForAcceptTypes, hnm,
          notFoundMessageFor]

/-- Claim C3: the matcher returns on the first preference in ranked order
that has any matching record — when every preference in the higher-ranked
block has zero matching records and a lower-ranked preference has a matching
record, that lower-ranked preference's match is returned, so preference
order dominates record order and a higher-ranked preference with no match
never causes an overall no-match. -/
theorem claim_C3 (records : List AddressInformation)
    (prefs1 prefs2 : List AcceptMediaType) (p : AcceptMediaType)
    (r : AddressInformation)
    (hnone : ∀ q ∈ prefs1, records.find? (acceptTypeMatches q) = none)
    (hmatch : records.find? (acceptTypeMatches p) = some r) :
    getPreferredPaymentInfo records (prefs1 ++ p :: prefs2) = some (p, r) := by
  induction prefs1 with
  | nil => simp [getPreferredPaymentInfo, hmatch]
  | cons q rest ih =>
    have hq : records.find? (acceptTypeMatches q) = none := hnone q (by simp)
    rw [List.cons_append, getPreferredPaymentInfo, hq]
    exact ih (fun q2 hq2 => hnone q2 (List.mem_cons_of_mem q hq2))

/-- Claim C3 witness: with only an xrpl-testnet record stored and the ranked
preferences xrpl-mainnet then xrpl-testnet, the testnet match is returned. -/
theorem claim_C3_witness :
    getPreferredPaymentInfo [xrplTestnetRecord] ([xrplMainnetType] ++ xrplTestnetType :: []) =
      some (xrplTestnetType, xrplTestnetRecord) :=
  claim_C3 [xrplTestnetRecord] [xrplMainnetType] [] xrplTestnetType xrplTestnetRecord
    (by decide) (by decide)

/-- Claim C7: whenever the matcher returns a pair, the accept type and the
record agree — the record's payment network equals the accept type's, and
the accept type's environment is either the wildcard or equal to the
record's environment. -/
theorem claim_C7 (records : List AddressInformation)
    (prefs : List AcceptMediaType) (acceptType : AcceptMediaType)
    (record : AddressInformation)
    (h : getPreferredPaymentInfo records prefs = some (acceptType, record)) :
    record.payment_network = acceptType.paymentNetwork ∧
    (acceptType.environment = none ∨
      acceptType.environment = some record.environment) := by
  induction prefs with
  | nil => simp [getPreferredPaymentInfo] at h
  | cons q rest ih =>
    rw [getPreferredPaymentInfo] at h
    cases hf : records.find? (acceptTypeMatches q) with
    | some r2 =>
      rw [hf] at h
      simp at h
      obtain ⟨hq, hr⟩ := h
      rw [← hq, ← hr]
      have hpred : acceptTypeMatches q r2 = true := List.find?_some hf
      rw [acceptTypeMatches, Bool.and_eq_true] at hpred
      refine ⟨eq_of_beq hpred.1, ?_⟩
      cases henv : q.environment with
      | none => exact Or.inl rfl
      | some environment =>
        have h2 := hpred.2
        simp [henv] at h2
        exact Or.inr (by rw [h2])
    | none =>
      rw [hf] at h
      exact ih h

/-- Claim C7 witness: a concrete successful match agrees on network and
environment. -/
theorem claim_C7_witness :
    xrplMainnetRecord.payment_network = xrplMainnetType.paymentNetwork ∧
    (xrplMainnetType.environment = none ∨
      xrplMainnetType.environment = some xrplMainnetRecord.environment) :=
  claim_C7 [xrplMainnetRecord] [xrplMainnetType] xrplMainnetType xrplMainnetRecord
    (by decide)

/-- Claim C4: for every identifier that normalizes, resolving with an empty
list of Accept tokens yields the MissingAcceptHeader failure, never a
NotFound outcome, and performs no parser or record-store call (hence no
matching). -/
theorem claim_C4 (c : Collab) (req : Req) (res : ResState) (payId : String)
    (hnorm : c.urlToPayId (payIdUrl req) = Except.ok payId)
    (hempty : req.acceptHeaderTypes = []) :
    (getPaymentInfo c req res).1.error =
      some (HttpStatus.BadRequest, missingAcceptHeaderMessage) ∧
    (∀ m, (getPaymentInfo c req res).1.error ≠ some (HttpStatus.NotFound, m)) ∧
    (getPaymentInfo c req res).2 = [] := by
  have heq : getPaymentInfo c req res =
      (handleHttpError HttpStatus.BadRequest missingAcceptHeaderMessage res, []) := by
    rw [getPaymentInfo, hnorm, hempty]
  rw [heq]
  refine ⟨rfl, ?_, rfl⟩
  intro m hcontra
  rw [handleHttpError] at hcontra
  simp [HttpStatus.BadRequest, HttpStatus.NotFound] at hcontra

/-- Claim C4 witness: a concrete resolution with no Accept tokens. -/
theorem claim_C4_witness :
    (getPaymentInfo cNoRecords (exampleReq []) resInit).1.error =
      some (HttpStatus.BadRequest, missingAcceptHeaderMessage) ∧
    (∀ m, (getPaymentInfo cNoRecords (exampleReq []) resInit).1.error ≠
      some (HttpStatus.NotFound, m)) ∧
    (getPaymentInfo cNoRecords (exampleReq []) resInit).2 = [] :=
  claim_C4 cNoRecords (exampleReq []) resInit "alice$example.com" rfl rfl

/-- Claim C5: Accept-header validation is all-or-nothing — if any token of a
token list is rejected by the parser, the whole resolution fails with the
InvalidAcceptHeader outcome, and the record store is never consulted, so no
match is attempted using only the well-formed tokens. -/
theorem claim_C5 (c : Collab) (req : Req) (res : ResState) (payId : String)
    (token : String)
    (hnorm : c.urlToPayId (payIdUrl req) = Except.ok payId)
    (hmem : token ∈ req.acceptHeaderTypes)
    (hbad : c.parseAcceptMediaType token = none) :
    (getPaymentInfo c req res).1.error =
      some (HttpStatus.BadRequest, invalidAcceptHeaderMessage) ∧
    (∀ pid, Event.fetchCall pid ∉ (getPaymentInfo c req res).2) := by
  cases hts : req.acceptHeaderTypes with
  | nil => rw [hts] at hmem; simp at hmem
  | cons t rest =>
    rw [hts] at hmem
    have hnone : (parseAcceptTypes c.parseAcceptMediaType (t :: rest)).1 = none :=
      parseAcceptTypes_none_of_mem c.parseAcceptMediaType (t :: rest) token hmem hbad
    cases hpp : parseAcceptTypes c.parseAcceptMediaType (t :: rest) with
    | mk o events =>
      have ho : o = none := by rw [← hnone, hpp]
      subst ho
      have heq : getPaymentInfo c req res =
          (handleHttpError 400 invalidAcceptHeaderMessage res, events) := by
        simp [getPaymentInfo, hnorm, hts, hpp]
      rw [heq]
      refine ⟨rfl, ?_⟩
      intro pid hin
      have hin2 : Event.fetchCall pid ∈
          (parseAcceptTypes c.parseAcceptMediaType (t :: rest)).2 := by
        rw [hpp]
        exact hin
      obtain ⟨tk, htk⟩ := parseAcceptTypes_events_parseCall c.parseAcceptMediaType
        (t :: rest) (Event.fetchCall pid) hin2
      exact Event.noConfusion htk

/-- Claim C5 witness: one malformed token among the Accept tokens aborts the
whole resolution with InvalidAcceptHeader and no record-store call. -/
theorem claim_C5_witness :
    (getPaymentInfo cNoRecords reqBogus resInit).1.error =
      some (HttpStatus.BadRequest, invalidAcceptHeaderMessage) ∧
    Event.fetchCall "alice$example.com" ∉ (getPaymentInfo cNoRecords reqBogus resInit).2 := by
  have h := claim_C5 cNoRecords reqBogus resInit "alice$example.com"
    "application/bogus" rfl (by decide) rfl
  exact ⟨h.1, h.2 "alice$example.com"⟩

/-- Claim C6: for every resolution that ends not-found, the outcome is the
NotFound error whose message is selected from the parsed accept types — the
specific message carrying the single type's payment network and environment
when exactly one accepted type was supplied, and the generic
not-found-for-this-identifier message when more than one was supplied. -/
theorem claim_C6 (c : Collab) (req : Req) (res : ResState) (payId : String)
    (parsed : List AcceptMediaType) (events : List Event)
    (hnorm : c.urlToPayId (payIdUrl req) = Except.ok payId)
    (hp : parseAcceptTypes c.parseAcceptMediaType req.acceptHeaderTypes =
      (some parsed, events))
    (hne : parsed ≠ [])
    (hnm : getPreferredPaymentInfo (c.getAllPaymentInfoFromDatabase payId) parsed =
      none) :
    (∀ acceptType, parsed = [acceptType] →
      (getPaymentInfo c req res).1.error =
        some (HttpStatus.NotFound, notFoundSingleMessage payId acceptType)) ∧
    (parsed.length ≠ 1 →
      (getPaymentInfo c req res).1.error =
        some (HttpStatus.NotFound, notFoundMessage payId)) := by
  have heq := getPaymentInfo_notFound_eq c req res payId parsed events hnorm hp hne hnm
  rw [heq]
  constructor
  · intro acceptType hsingle
    subst hsingle
    rfl
  · intro hlen
    cases parsed with
    | nil => rfl
    | cons p ps =>
      cases ps with
      | nil => simp at hlen
      | cons p2 ps2 => rfl

/-- Claim C6 witness: with one accept type the not-found message names the
type's payment network and environment; with two accept types the generic
message is produced. -/
theorem claim_C6_witness :
    (getPaymentInfo cNoRecords reqXrpl resInit).1.error =
      some (HttpStatus.NotFound, notFoundSingleMessage "alice$example.com" xrplMainnetType) ∧
    (getPaymentInfo cNoRecords reqBoth resInit).1.error =
      some (HttpStatus.NotFound, notFoundMessage "alice$example.com") := by
  constructor
  · exact (claim_C6 cNoRecords reqXrpl resInit "alice$example.com" [xrplMainnetType]
      [Event.parseCall "application/xrpl-mainnet+json"] rfl rfl (by decide) rfl).1
      xrplMainnetType rfl
  · exact (claim_C6 cNoRecords reqBoth resInit "alice$example.com"
      [xrplMainnetType, achType]
      [Event.parseCall "application/xrpl-mainnet+json", Event.parseCall "application/ach+json"]
      rfl rfl (by decide) rfl).2 (by decide)

/-- Claim C8: on every successful resolution the outgoing Content-Type is
exactly the matched accept type's mediaType string. -/
theorem claim_C8 (c : Collab) (req : Req) (res : ResState) (payId : String)
    (parsed : List AcceptMediaType) (events : List Event)
    (acceptType : AcceptMediaType) (paymentInformation : AddressInformation)
    (hnorm : c.urlToPayId (payIdUrl req) = Except.ok payId)
    (hp : parseAcceptTypes c.parseAcceptMediaType req.acceptHeaderTypes =
      (some parsed, events))
    (hm : getPreferredPaymentInfo (c.getAllPaymentInfoFromDatabase payId) parsed =
      some (acceptType, paymentInformation)) :
    (getPaymentInfo c req res).1.contentType = some acceptType.mediaType := by
  rw [getPaymentInfo_success_eq c req res payId parsed events acceptType
    paymentInformation hnorm hp hm]

/-- Claim C8 witness: a concrete successful resolution sets the Content-Type
to the matched media type string. -/
theorem claim_C8_witness :
    (getPaymentInfo cXrpl reqXrpl resInit).1.contentType =
      some xrplMainnetType.mediaType :=
  claim_C8 cXrpl reqXrpl resInit "alice$example.com" [xrplMainnetType]
    [Event.parseCall "application/xrpl-mainnet+json"] xrplMainnetType
    xrplMainnetRecord rfl rfl (by decide)

/-- Claim C9: getPaymentInfoForAcceptTypes consults the record store exactly
once when the sorted accepted-type list is non-empty, and returns none
immediately without any record-store call when the list is empty. -/
theorem claim_C9 (fetch : String → List AddressInformation) (payId : String)
    (sortedAcceptTypes : List AcceptMediaType) :
    (sortedAcceptTypes = [] →
      getPaymentInfoForAcceptTypes fetch payId sortedAcceptTypes = (none, [])) ∧
    (sortedAcceptTypes ≠ [] →
      (getPaymentInfoForAcceptTypes fetch payId sortedAcceptTypes).2 =
        [Event.fetchCall payId]) := by
  constructor
  · intro hempty
    subst hempty
    rfl
  · intro hne
    cases sortedAcceptTypes with
    | nil => exact absurd rfl hne
    | cons acceptType rest => rfl

/-- Claim C9 witness: concrete empty and non-empty sorted accept lists. -/
theorem claim_C9_witness :
    getPaymentInfoForAcceptTypes (fun _ => []) "alice$example.com" [] = (none, []) ∧
    (getPaymentInfoForAcceptTypes (fun _ => []) "alice$example.com" [xrplMainnetType]).2 =
      [Event.fetchCall "alice$example.com"] :=
  ⟨(claim_C9 (fun _ => []) "alice$example.com" []).1 rfl,
    (claim_C9 (fun _ => []) "alice$example.com" [xrplMainnetType]).2 (by decide)⟩

/-- Claim C10: starting from a response that has not called next() and has
no error recorded, the middleware either succeeds — no error recorded,
next() called, res.locals.payId holds the normalized PayID and the very same
shaped payment-information object is stored in res.locals.paymentInformation
and res.locals.response — or fails — an error is recorded, next() is not
called, and res.locals is left unmodified. -/
theorem claim_C10 (c : Collab) (req : Req) (res : ResState)
    (hnext : res.nextCalled = false) (herr : res.error = none) :
    ((getPaymentInfo c req res).1.error = none →
      (getPaymentInfo c req res).1.nextCalled = true ∧
      (∃ payId, c.urlToPayId (payIdUrl req) = Except.ok payId ∧
        (getPaymentInfo c req res).1.locals.payId = some payId) ∧
      (getPaymentInfo c req res).1.locals.paymentInformation =
        (getPaymentInfo c req res).1.locals.response ∧
      ((getPaymentInfo c req res).1.locals.response).isSome = true) ∧
    ((getPaymentInfo c req res).1.error ≠ none →
      (getPaymentInfo c req res).1.nextCalled = false ∧
      (getPaymentInfo c req res).1.locals = res.locals) := by
  cases hn : c.urlToPayId (payIdUrl req) with
  | error errMessage =>
    have heq : getPaymentInfo c req res =
        (handleHttpError HttpStatus.BadRequest errMessage res, []) := by
      rw [getPaymentInfo, hn]
    rw [heq]
    simp [handleHttpError, hnext]
  | ok payId =>
    cases hts : req.acceptHeaderTypes with
    | nil =>
      have heq : getPaymentInfo c req res =
          (handleHttpError HttpStatus.BadRequest missingAcceptHeaderMessage res, []) := by
        rw [getPaymentInfo, hn, hts]
      rw [heq]
      simp [handleHttpError, hnext]
    | cons token rest =>
      cases hpp : parseAcceptTypes c.parseAcceptMediaType (token :: rest) with
      | mk o parseEvents =>
        cases o with
        | none =>
          have heq : getPaymentInfo c req res =
              (handleHttpError 400 invalidAcceptHeaderMessage res, parseEvents) := by
            simp [getPaymentInfo, hn, hts, hpp]
          rw [heq]
          simp [handleHttpError, hnext]
        | some parsed =>
          cases hg : getPreferredPaymentInfo (c.getAllPaymentInfoFromDatabase payId)
              parsed with
          | none =>
            have hne : parsed ≠ [] := parseAcceptTypes_cons_ne_nil
              c.parseAcceptMediaType token rest parsed parseEvents hpp
            have heq := getPaymentInfo_notFound_eq c req res payId parsed parseEvents
              (by rw [hn]) (by rw [hts, hpp]) hne hg
            rw [heq]
            simp [handleHttpError, hnext]
          | some pair =>
            cases pair with
            | mk acceptType paymentInformation =>
              have heq := getPaymentInfo_success_eq c req res payId parsed
                parseEvents acceptType paymentInformation (by rw [hn])
                (by rw [hts, hpp]) hg
              rw [heq]
              refine ⟨fun _ => ⟨rfl, ⟨payId, rfl, rfl⟩, rfl, rfl⟩, fun hcontra => ?_⟩
              exact absurd herr hcontra

/-- Claim C10 witness: a concrete successful resolution stores the
normalized PayID and the same response object in both locals fields, and a
concrete failing resolution leaves res.locals untouched. -/
theorem claim_C10_witness :
    (getPaymentInfo cXrpl reqXrpl resInit).1.nextCalled = true ∧
    (getPaymentInfo cXrpl reqXrpl resInit).1.locals.paymentInformation =
      (getPaymentInfo cXrpl reqXrpl resInit).1.locals.response ∧
    (getPaymentInfo cNoRecords reqXrpl resInit).1.nextCalled = false ∧
    (getPaymentInfo cNoRecords reqXrpl resInit).1.locals = resInit.locals := by
  have hsuccess := (claim_C10 cXrpl reqXrpl resInit rfl rfl).1 (by decide)
  have hfail := (claim_C10 cNoRecords reqXrpl resInit rfl rfl).2 (by decide)
  exact ⟨hsuccess.1, hsuccess.2.2.1, hfail.1, hfail.2⟩

/-- Claim C1 counterexample: for a concrete identifier and the non-empty
valid preference list [xrpl-mainnet], resolving against an empty record set
and resolving against a record set (one ACH record) matching no preference
produce one and the same outcome — down to the full response state and
collaborator trace — and that outcome is the single merged NotFound error;
the two not-found cases are not distinguishable. -/
theorem claim_C1_counterexample :
    getPaymentInfo cNoRecords reqXrpl resInit = getPaymentInfo cAchOnly reqXrpl resInit ∧
    (getPaymentInfo cNoRecords reqXrpl resInit).1.error =
      some (HttpStatus.NotFound, notFoundSingleMessage "alice$example.com" xrplMainnetType) := by
  constructor
  · decide
  · decide

/-- Claim C1 (amended): resolving an identifier whose record set is empty
and resolving one whose records match no accepted type produce one and the
same merged NotFound outcome — the middleware does not distinguish the two
cases: with the same normalizer and parser, the final response states and
traces are equal. -/
theorem claim_C1_amended (c1 c2 : Collab) (req : Req) (res : ResState)
    (payId : String) (parsed : List AcceptMediaType) (events : List Event)
    (hn : c1.urlToPayId = c2.urlToPayId)
    (hparse : c1.parseAcceptMediaType = c2.parseAcceptMediaType)
    (hnorm : c1.urlToPayId (payIdUrl req) = Except.ok payId)
    (hp : parseAcceptTypes c1.parseAcceptMediaType req.acceptHeaderTypes =
      (some parsed, events))
    (hne : parsed ≠ [])
    (hempty : c1.getAllPaymentInfoFromDatabase payId = [])
    (hnomatch : getPreferredPaymentInfo (c2.getAllPaymentInfoFromDatabase payId)
      parsed = none) :
    getPaymentInfo c1 req res = getPaymentInfo c2 req res := by
  have hnm1 : getPreferredPaymentInfo (c1.getAllPaymentInfoFromDatabase payId)
      parsed = none := by
    rw [hempty]
    exact getPreferredPaymentInfo_nil parsed
  have h1 := getPaymentInfo_notFound_eq c1 req res payId parsed events hnorm hp hne hnm1
  have h2 := getPaymentInfo_notFound_eq c2 req res payId parsed events
    (by rw [← hn]; exact hnorm) (by rw [← hparse]; exact hp) hne hnomatch
  rw [h1, h2]

/-- Claim C1 amended witness: the two concrete not-found resolutions of the
counterexample are equal via the amended theorem. -/
theorem claim_C1_amended_witness :
    getPaymentInfo cNoRecords reqXrpl resInit = getPaymentInfo cAchOnly reqXrpl resInit :=
  claim_C1_amended cNoRecords cAchOnly reqXrpl resInit "alice$example.com"
    [xrplMainnetType] [Event.parseCall "application/xrpl-mainnet+json"]
    rfl rfl rfl rfl (by decide) rfl (by decide)

/-- Claim C2 counterexample: a record whose detailsKind is ach-address but
whose payment_network is btc is successfully matched and rendered with the
crypto-address shape — the detail shape is not selected by the detailsKind
discriminator and no fail-fast occurs. -/
theorem claim_C2_counterexample :
    btcRecordWithAchDetails.detailsKind = "ach-address" ∧
    (getPaymentInfo cBtcAch reqBtc resInit).1.nextCalled = true ∧
    (getPaymentInfo cBtcAch reqBtc resInit).1.locals.response =
      some { addressDetailType := AddressDetailType.CryptoAddress,
             addressDetails := btcRecordWithAchDetails.details } := by
  refine ⟨rfl, ?_, ?_⟩
  · decide
  · decide

/-- Claim C2 (amended): for every successful match the outbound payload's
detail shape is selected by the record's payment_network field, not by its
detailsKind — the ach-address shape is used exactly when payment_network is
the string ACH and the crypto-address shape otherwise, the opaque details
payload is passed through unchanged, and no fail-fast path exists for a
mismatched or unrecognized kind. -/
theorem claim_C2_amended (c : Collab) (req : Req) (res : ResState)
    (payId : String) (parsed : List AcceptMediaType) (events : List Event)
    (acceptType : AcceptMediaType) (paymentInformation : AddressInformation)
    (hnorm : c.urlToPayId (payIdUrl req) = Except.ok payId)
    (hp : parseAcceptTypes c.parseAcceptMediaType req.acceptHeaderTypes =
      (some parsed, events))
    (hm : getPreferredPaymentInfo (c.getAllPaymentInfoFromDatabase payId) parsed =
      some (acceptType, paymentInformation)) :
    (getPaymentInfo c req res).1.locals.response =
      some (shapedResponse paymentInformation) ∧
    ((shapedResponse paymentInformation).addressDetailType =
        AddressDetailType.AchAddress ↔
      paymentInformation.payment_network = "ACH") ∧
    (shapedResponse paymentInformation).addressDetails =
      paymentInformation.details := by
  refine ⟨?_, ?_, ?_⟩
  · rw [getPaymentInfo_success_eq c req res payId parsed events acceptType
      paymentInformation hnorm hp hm]
  · rw [shapedResponse]
    by_cases hach : paymentInformation.payment_network = "ACH"
    · simp [hach]
    · simp [hach]
  · rw [shapedResponse]
    by_cases hach : paymentInformation.payment_network = "ACH"
    · simp [hach]
    · simp [hach]

/-- Claim C2 amended witness: a concrete ACH-network record is rendered with
the ach-address shape and its payload passes through unchanged. -/
theorem claim_C2_amended_witness :
    (getPaymentInfo cAchOnly reqAch resInit).1.locals.response =
      some (shapedResponse achNetworkRecord) ∧
    (shapedResponse achNetworkRecord).addressDetailType =
      AddressDetailType.AchAddress := by
  have h := claim_C2_amended cAchOnly reqAch resInit "alice$example.com" [achType]
    [Event.parseCall "application/ach+json"] achType achNetworkRecord
    rfl rfl (by decide)
  exact ⟨h.1, h.2.1.mpr rfl⟩
